import Mathlib

/-!
Verification of the credit-scoring engine in `credit_scoring.py`.

The source is a single pure Python function `evaluate_customer(data)` that
reads optional fields out of a dictionary, scores four categories
(financial strength, payment behaviour, external checks, business
stability), clamps each to its ceiling, sums and clamps the total to
[0,100], and maps the total to a risk band and a decision while
accumulating an ordered list of reason strings.

Modelling choices, faithful to CPython semantics on the inputs that
matter here:

* A dictionary value is a `PyVal`: Python `None`, `bool`, `int`, `float`
  or `str`.  An absent key is `Option.none` in the `InputRecord`.
* Python floats are modelled as rationals.  The thresholds used by the
  program (10, 5, 2, 0, 1.5, 1.2, 1.0, 40, 80, 90, ...) are exactly
  representable as binary floats and the program only compares values,
  never accumulates rounding error, so exact rational comparison agrees
  with float comparison for the inputs the claims mention.
* `float(x)` / `int(x)` raise `TypeError` on `None`; this is modelled by
  `Option.none` as result of `pyFloat` / `pyInt`.  Parsing of numeric
  strings (e.g. `float("3.5")`) is not modelled: a string supplied to a
  numeric field is treated as a conversion failure.  No claim feeds a
  numeric string to a numeric field.
* `x or y` returns `x` when `x` is truthy, else `y` (`pyOr`), with
  Python truthiness (`pyTruthy`).
* `x is True` / `x is False` hold exactly when `x` is the boolean
  singleton, never for `1`, `0` or a string; the scorers for the
  tri-state fields match only the `PyVal.bool` constructor.
* Every sub-score in the program is an integer literal, so all sums,
  clamps and the total are integer-valued; Python `round(x, 1)` is the
  identity on integer-valued floats, hence scores are modelled as `Int`
  and the rounding step disappears.
* The source interleaves field coercion with scoring; since the only
  effect of a coercion is success or a raised exception, hoisting all
  coercions in front of the (total) scoring core preserves the
  `Option`-valued result exactly.
-/

set_option autoImplicit false

/-- Risk band enumeration, from class `RiskBand` in the source. -/
inductive RiskBand where
  | LOW
  | MEDIUM
  | HIGH
deriving DecidableEq, BEq, Repr

/-- Decision enumeration, from class `Decision` in the source. -/
inductive Decision where
  | APPROVE
  | CONDITIONAL_APPROVAL
  | REJECT
deriving DecidableEq, BEq, Repr

/-- A Python value as it can appear in the input dictionary:
`None`, a bool, an int, a float (modelled as a rational), or a string. -/
inductive PyVal where
  | null
  | bool (b : Bool)
  | int (n : Int)
  | num (q : ℚ)
  | str (s : String)
deriving DecidableEq, Repr

/-- Python truthiness: `None`, `False`, `0`, `0.0` and `""` are falsy. -/
def pyTruthy : PyVal → Bool
  | PyVal.null => false
  | PyVal.bool b => b
  | PyVal.int n => n != 0
  | PyVal.num q => q != 0
  | PyVal.str s => s != ""

/-- Python `x or y`: `x` if truthy, else `y`. -/
def pyOr (x y : PyVal) : PyVal := if pyTruthy x then x else y

/-- Python `float(x)`.  `None` raises `TypeError` (modelled as failure);
bools are 0/1; numeric-string parsing is not modelled (failure). -/
def pyFloat : PyVal → Option ℚ
  | PyVal.null => Option.none
  | PyVal.bool b => some (if b then 1 else 0)
  | PyVal.int n => some (n : ℚ)
  | PyVal.num q => some q
  | PyVal.str _ => Option.none

/-- Truncation of a rational toward zero, as Python `int()` applied to a
float. -/
def ratTrunc (q : ℚ) : Int := if 0 ≤ q then ⌊q⌋ else ⌈q⌉

/-- Python `int(x)`.  `None` raises `TypeError` (failure); bools are 0/1;
floats truncate toward zero; numeric-string parsing is not modelled. -/
def pyInt : PyVal → Option Int
  | PyVal.null => Option.none
  | PyVal.bool b => some (if b then 1 else 0)
  | PyVal.int n => some n
  | PyVal.num q => some (ratTrunc q)
  | PyVal.str _ => Option.none

/-- Python `str(x)`.  The float case is an approximation of float repr;
no claim applies `str` to a float. -/
def pyStr : PyVal → String
  | PyVal.null => "None"
  | PyVal.bool true => "True"
  | PyVal.bool false => "False"
  | PyVal.int n => toString n
  | PyVal.num q => toString q
  | PyVal.str s => s

/-- Python `s.lower()` for the ASCII strings the program compares
(structural recursion over the character list, so it reduces in the
kernel; agrees with `String.toLower` on every string). -/
def strLower (s : String) : String := String.mk (s.data.map Char.toLower)

/-- Python `s.upper()` for the ASCII strings the program compares. -/
def strUpper (s : String) : String := String.mk (s.data.map Char.toUpper)

/-- The input dictionary, restricted to the keys `evaluate_customer`
reads; `Option.none` is an absent key, `some v` a present value `v`
(possibly `PyVal.null`).  Unknown extra keys are ignored by the source
and so need no representation. -/
structure InputRecord where
  net_profit_margin : Option PyVal := Option.none
  current_ratio : Option PyVal := Option.none
  debt_to_equity : Option PyVal := Option.none
  banking_limit_utilisation : Option PyVal := Option.none
  turnover_trend : Option PyVal := Option.none
  avg_days_to_pay : Option PyVal := Option.none
  bounced_cheques_last_12m : Option PyVal := Option.none
  past_default_flag : Option PyVal := Option.none
  gst_filing_timely : Option PyVal := Option.none
  active_litigation : Option PyVal := Option.none
  credit_rating : Option PyVal := Option.none
  years_in_business : Option PyVal := Option.none
  industry_risk : Option PyVal := Option.none
  top_5_customer_share : Option PyVal := Option.none
  management_risk_flag : Option PyVal := Option.none
deriving DecidableEq, Repr

/-- The per-category score dictionary of the result (fixed keys). -/
structure CategoryScores where
  financial_strength : Int
  payment_behaviour : Int
  external_checks : Int
  business_stability : Int
deriving DecidableEq, Repr

/-- The `ScoreResult` dataclass of the source.  All published scores are
integer-valued (see header), so they are `Int` here. -/
structure ScoreResult where
  total_score : Int
  risk_band : RiskBand
  decision : Decision
  category_scores : CategoryScores
  reasons : List String
deriving DecidableEq, Repr

/-- `_clamp(x, lo, hi) = max(lo, min(hi, x))` from the source. -/
def _clamp (x lo hi : Int) : Int := max lo (min hi x)

/-- The input fields after coercion, in source order. -/
structure Coerced where
  npm : ℚ
  curr_ratio : ℚ
  d2e : ℚ
  bank_util : ℚ
  trend : String
  avg_days : Int
  bounces : Int
  past_default : Bool
  gst_filing_timely : PyVal
  active_litigation : PyVal
  credit_rating : PyVal
  years : ℚ
  industry_risk : String
  top5_share : ℚ
  mgmt_risk : Bool
deriving DecidableEq, Repr

/-- The turnover-trend coercion of source line 65:
`str(data.get("turnover_trend", "stable") or "").lower()`.  An absent
key defaults to `"stable"`; a present falsy value (`None`, `""`, `0`)
becomes `""` through the `or`. -/
def coerceTrend (o : Option PyVal) : String :=
  strLower (pyStr (pyOr (o.getD (PyVal.str ("stable"))) (PyVal.str (""))))

/-- The field coercions of `evaluate_customer` (source lines 61-65,
131-133, 174-176, 219-222), hoisted in front of the scoring core.
Each line mirrors the corresponding `data.get(...)` expression. -/
def coerceInputs (data : InputRecord) : Option Coerced := do
  let npm ← pyFloat (data.net_profit_margin.getD (PyVal.num 0))
  let curr_ratio ← pyFloat (data.current_ratio.getD (PyVal.num 0))
  let d2e ← pyFloat (data.debt_to_equity.getD (PyVal.num 0))
  let bank_util ← pyFloat (data.banking_limit_utilisation.getD (PyVal.num 0))
  let trend := coerceTrend data.turnover_trend
  let avg_days ← pyInt (pyOr (data.avg_days_to_pay.getD (PyVal.int 45)) (PyVal.int 45))
  let bounces ← pyInt (pyOr (data.bounced_cheques_last_12m.getD (PyVal.int 0)) (PyVal.int 0))
  let past_default := pyTruthy (data.past_default_flag.getD (PyVal.bool false))
  let gst_filing_timely := data.gst_filing_timely.getD PyVal.null
  let active_litigation := data.active_litigation.getD PyVal.null
  let credit_rating := data.credit_rating.getD PyVal.null
  let years ← pyFloat (pyOr (data.years_in_business.getD (PyVal.num 0)) (PyVal.num 0))
  let industry_risk := strLower (pyStr (pyOr (data.industry_risk.getD (PyVal.str ("medium"))) (PyVal.str ("medium"))))
  let top5_share ← pyFloat (pyOr (data.top_5_customer_share.getD (PyVal.num 0)) (PyVal.num 0))
  let mgmt_risk := pyTruthy (data.management_risk_flag.getD (PyVal.bool false))
  pure { npm, curr_ratio, d2e, bank_util, trend, avg_days, bounces,
         past_default, gst_filing_timely, active_litigation, credit_rating,
         years, industry_risk, top5_share, mgmt_risk }

/-- Net profit margin sub-score (source lines 68-78), with the reasons it
appends. -/
def scoreNpm (npm : ℚ) : Int × List String :=
  if npm > 10 then (10, [])
  else if npm > 5 then (8, [])
  else if npm > 2 then (5, [])
  else if npm > 0 then (2, [])
  else (0, ["Net profit margin is very low or negative."])

/-- Current ratio sub-score (source lines 81-89).  The thresholds 1.5
and 1.2 of the source are written `mkRat 3 2` and `mkRat 6 5` (the same
rationals) because scientific-notation rational literals are
irreducible in this library and would block kernel evaluation. -/
def scoreCurrRatio (curr_ratio : ℚ) : Int × List String :=
  if curr_ratio ≥ mkRat 3 2 then (8, [])
  else if curr_ratio ≥ mkRat 6 5 then (6, [])
  else if curr_ratio ≥ 1 then (4, [])
  else (1, ["Current ratio below 1.0 indicates tight liquidity."])

/-- Debt-to-equity sub-score (source lines 92-100). -/
def scoreD2e (d2e : ℚ) : Int × List String :=
  if d2e ≤ 1 then (8, [])
  else if d2e ≤ 2 then (6, [])
  else if d2e ≤ 3 then (3, [])
  else (0, ["Debt-to-equity is very high."])

/-- Bank limit utilisation sub-score (source lines 103-112). -/
def scoreBankUtil (bank_util : ℚ) : Int × List String :=
  if 40 ≤ bank_util ∧ bank_util ≤ 80 then (8, [])
  else if bank_util < 40 then
    (6, ["Bank limit utilisation is low; could indicate underutilisation of facilities."])
  else if bank_util ≤ 90 then (5, [])
  else (2, ["Bank limit utilisation consistently >90% indicates stress on working capital."])

/-- Turnover trend sub-score (source lines 115-123); the argument is the
already-lowercased trend string. -/
def scoreTrend (trend : String) : Int × List String :=
  if trend = "improving" then (6, [])
  else if trend = "stable" then (4, [])
  else if trend = "declining" then (1, ["Turnover trend is declining."])
  else (3, [])

/-- Days-to-pay sub-score (source lines 136-147). -/
def scoreDays (avg_days : Int) : Int × List String :=
  if avg_days ≤ 30 then (10, [])
  else if avg_days ≤ 45 then (8, [])
  else if avg_days ≤ 60 then (5, [])
  else if avg_days ≤ 90 then (2, ["Average payment days are on the higher side."])
  else (0, ["Very high average payment days."])

/-- Bounced cheques sub-score (source lines 150-160). -/
def scoreBounces (bounces : Int) : Int × List String :=
  if bounces = 0 then (10, [])
  else if bounces ≤ 2 then (7, ["Some cheque bounces in last 12 months."])
  else if bounces ≤ 5 then (3, ["Multiple cheque bounces in last 12 months."])
  else (0, ["Frequent cheque bounces in last 12 months."])

/-- Past default adjustment (source lines 163-166). -/
def scoreDefaultAdj (past_default : Bool) : Int × List String :=
  if past_default then (-5, ["History of default / write-off reported."])
  else (0, [])

/-- GST filing sub-score (source lines 179-185); the source compares the
raw value with `is True` / `is False`, which only the bool singletons
satisfy. -/
def scoreGst : PyVal → Int × List String
  | PyVal.bool true => (5, [])
  | PyVal.bool false => (1, ["GST filing not timely."])
  | _ => (3, [])

/-- Litigation sub-score (source lines 188-194); `is False` first, then
`is True`, anything else is the unknown branch. -/
def scoreLit : PyVal → Int × List String
  | PyVal.bool false => (5, [])
  | PyVal.bool true => (1, ["Active litigation / legal disputes reported."])
  | _ => (3, [])

/-- The `rating_score_map` dictionary with its `.get(cr_up, 1)` default
(source lines 197-209). -/
def rating_score_map : String → Int
  | "AAA" => 5
  | "AA" => 4
  | "A" => 3
  | "BBB" => 2
  | "BB" => 1
  | "B" => 0
  | "C" => 0
  | _ => 1

/-- External rating sub-score (source lines 206-211): `s_rating` stays 1
when `credit_rating` is falsy; otherwise the uppercased string is looked
up, and B or C append a reason. -/
def scoreRating (credit_rating : PyVal) : Int × List String :=
  if pyTruthy credit_rating then
    let cr_up := strUpper (pyStr credit_rating)
    (rating_score_map cr_up,
      if cr_up = "B" ∨ cr_up = "C" then ["Weak external rating (" ++ cr_up ++ ")."] else [])
  else (1, [])

/-- Years-in-business sub-score (source lines 225-233). -/
def scoreYears (years : ℚ) : Int × List String :=
  if years ≥ 10 then (6, [])
  else if years ≥ 5 then (4, [])
  else if years ≥ 2 then (2, [])
  else (0, ["Limited operating history."])

/-- Industry risk sub-score (source lines 236-244); the argument is the
already-lowercased industry string. -/
def scoreInd (industry_risk : String) : Int × List String :=
  if industry_risk = "low" then (5, [])
  else if industry_risk = "medium" then (3, [])
  else if industry_risk = "high" then (1, ["High-risk industry."])
  else (2, [])

/-- Customer concentration sub-score (source lines 247-256). -/
def scoreConc (top5_share : ℚ) : Int × List String :=
  if top5_share ≤ 40 then (4, [])
  else if top5_share ≤ 60 then (3, [])
  else if top5_share ≤ 80 then (2, ["Moderate customer concentration."])
  else (0, ["Very high dependence on few customers."])

/-- Management risk adjustment (source lines 261-263): subtract 3 from
the running stability sum before the clamp. -/
def scoreMgmtAdj (mgmt_risk : Bool) : Int × List String :=
  if mgmt_risk then (-3, ["Concerns flagged on management integrity / governance."])
  else (0, [])

/-- The band classifier (source lines 274-279). -/
def riskBand (total_score : Int) : RiskBand :=
  if total_score ≥ 75 then RiskBand.LOW
  else if total_score ≥ 50 then RiskBand.MEDIUM
  else RiskBand.HIGH

/-- The decision classifier (source lines 282-287). -/
def decisionOf (risk_band : RiskBand) : Decision :=
  if risk_band = RiskBand.LOW then Decision.APPROVE
  else if risk_band = RiskBand.MEDIUM then Decision.CONDITIONAL_APPROVAL
  else Decision.REJECT

/-- The scoring body of `evaluate_customer` on the coerced fields
(source lines 67-302).  Reasons are appended in exactly the source
order: npm, current ratio, debt-to-equity, bank utilisation, trend,
days, bounces, past default, GST, litigation, rating, years, industry,
concentration, management. -/
def evaluateCore (c : Coerced) : ScoreResult :=
  let npmR := scoreNpm c.npm
  let crR := scoreCurrRatio c.curr_ratio
  let d2eR := scoreD2e c.d2e
  let bankR := scoreBankUtil c.bank_util
  let trendR := scoreTrend c.trend
  let daysR := scoreDays c.avg_days
  let bounceR := scoreBounces c.bounces
  let defR := scoreDefaultAdj c.past_default
  let gstR := scoreGst c.gst_filing_timely
  let litR := scoreLit c.active_litigation
  let ratingR := scoreRating c.credit_rating
  let yearsR := scoreYears c.years
  let indR := scoreInd c.industry_risk
  let concR := scoreConc c.top5_share
  let mgmtR := scoreMgmtAdj c.mgmt_risk
  let financial_strength := _clamp (npmR.1 + crR.1 + d2eR.1 + bankR.1 + trendR.1) 0 40
  let payment_behaviour := _clamp (daysR.1 + bounceR.1 + defR.1) 0 30
  let external_checks := _clamp (gstR.1 + litR.1 + ratingR.1) 0 15
  let business_stability := _clamp (yearsR.1 + indR.1 + concR.1 + mgmtR.1) 0 15
  let total_score := _clamp (financial_strength + payment_behaviour + external_checks + business_stability) 0 100
  { total_score := total_score
    risk_band := riskBand total_score
    decision := decisionOf (riskBand total_score)
    category_scores :=
      { financial_strength := financial_strength
        payment_behaviour := payment_behaviour
        external_checks := external_checks
        business_stability := business_stability }
    reasons := npmR.2 ++ crR.2 ++ d2eR.2 ++ bankR.2 ++ trendR.2 ++
               daysR.2 ++ bounceR.2 ++ defR.2 ++ gstR.2 ++ litR.2 ++
               ratingR.2 ++ yearsR.2 ++ indR.2 ++ concR.2 ++ mgmtR.2 }

/-- `evaluate_customer(data)`: coerce the fields, then score; a raised
`TypeError` during coercion is `Option.none`. -/
def evaluate_customer (data : InputRecord) : Option ScoreResult :=
  (coerceInputs data).map evaluateCore

/-- The empty input record: every key absent. -/
def emptyRecord : InputRecord := {}

/-- The result of evaluating the empty record (checked below). -/
def emptyResult : ScoreResult :=
  { total_score := 51
    risk_band := RiskBand.MEDIUM
    decision := Decision.CONDITIONAL_APPROVAL
    category_scores :=
      { financial_strength := 19
        payment_behaviour := 18
        external_checks := 7
        business_stability := 7 }
    reasons := ["Net profit margin is very low or negative.",
                "Current ratio below 1.0 indicates tight liquidity.",
                "Bank limit utilisation is low; could indicate underutilisation of facilities.",
                "Limited operating history."] }

/-- A record differing from the empty one only in spelling out the
default `avg_days_to_pay`; it evaluates to the same result. -/
def explicitDaysRecord : InputRecord := { avg_days_to_pay := some (PyVal.int 45) }

/-- The weak-applicant record of spec scenario 3. -/
def weakRecord : InputRecord :=
  { net_profit_margin := some (PyVal.num (-2))
    current_ratio := some (PyVal.num (mkRat 4 5))
    debt_to_equity := some (PyVal.num 4)
    banking_limit_utilisation := some (PyVal.num 95)
    turnover_trend := some (PyVal.str ("declining"))
    avg_days_to_pay := some (PyVal.int 120)
    bounced_cheques_last_12m := some (PyVal.int 7)
    past_default_flag := some (PyVal.bool true)
    gst_filing_timely := some (PyVal.bool false)
    active_litigation := some (PyVal.bool true)
    credit_rating := some (PyVal.str ("C"))
    years_in_business := some (PyVal.num 1)
    industry_risk := some (PyVal.str ("high"))
    top_5_customer_share := some (PyVal.num 90)
    management_risk_flag := some (PyVal.bool true) }

/-! ## Helper lemmas -/

theorem _clamp_mem (x lo hi : Int) (h : lo ≤ hi) :
    lo ≤ _clamp x lo hi ∧ _clamp x lo hi ≤ hi :=
  ⟨le_max_left lo (min hi x), max_le h (min_le_left hi x)⟩

theorem evaluate_customer_inv (data : InputRecord) (r : ScoreResult)
    (h : evaluate_customer data = some r) :
    ∃ c, coerceInputs data = some c ∧ evaluateCore c = r :=
  Option.map_eq_some'.mp h

theorem evaluate_band_decision (data : InputRecord) (r : ScoreResult)
    (h : evaluate_customer data = some r) :
    r.risk_band = riskBand r.total_score ∧
    r.decision = decisionOf (riskBand r.total_score) := by
  obtain ⟨c, -, hr⟩ := evaluate_customer_inv data r h
  subst hr
  exact ⟨rfl, rfl⟩

theorem riskBand_spec (t : Int) :
    (75 ≤ t → riskBand t = RiskBand.LOW) ∧
    (50 ≤ t → t < 75 → riskBand t = RiskBand.MEDIUM) ∧
    (t < 50 → riskBand t = RiskBand.HIGH) := by
  unfold riskBand
  refine ⟨fun h => ?_, fun h1 h2 => ?_, fun h => ?_⟩ <;>
    split_ifs <;> first | rfl | (exfalso; omega)

/-! ## Claim theorems -/

/-- C1: the classifier maps `total_score` to band and decision exactly by
the documented thresholds (≥75 → LOW/APPROVE, [50,75) →
MEDIUM/CONDITIONAL_APPROVAL, <50 → HIGH/REJECT), and band and decision
are functions of `total_score` alone: any two records with the same
total receive the same band and decision. -/
theorem c1_classifier_thresholds (data : InputRecord) (r : ScoreResult)
    (h : evaluate_customer data = some r) :
    (75 ≤ r.total_score → r.risk_band = RiskBand.LOW ∧ r.decision = Decision.APPROVE) ∧
    (50 ≤ r.total_score → r.total_score < 75 →
      r.risk_band = RiskBand.MEDIUM ∧ r.decision = Decision.CONDITIONAL_APPROVAL) ∧
    (r.total_score < 50 → r.risk_band = RiskBand.HIGH ∧ r.decision = Decision.REJECT) ∧
    (∀ data2 r2, evaluate_customer data2 = some r2 → r2.total_score = r.total_score →
      r2.risk_band = r.risk_band ∧ r2.decision = r.decision) := by
  obtain ⟨hband, hdec⟩ := evaluate_band_decision data r h
  refine ⟨fun h75 => ?_, fun h50 h75 => ?_, fun h50 => ?_, fun data2 r2 h2 ht => ?_⟩
  · have hb : riskBand r.total_score = RiskBand.LOW := (riskBand_spec r.total_score).1 h75
    exact ⟨hband.trans hb, by rw [hdec, hb]; rfl⟩
  · have hb := (riskBand_spec r.total_score).2.1 h50 h75
    exact ⟨hband.trans hb, by rw [hdec, hb]; rfl⟩
  · have hb := (riskBand_spec r.total_score).2.2 h50
    exact ⟨hband.trans hb, by rw [hdec, hb]; rfl⟩
  · obtain ⟨hband2, hdec2⟩ := evaluate_band_decision data2 r2 h2
    rw [hband2, hdec2, hband, hdec, ht]
    exact ⟨rfl, rfl⟩

/-- C1 witness: the empty record has total 51, hence MEDIUM and
CONDITIONAL_APPROVAL. -/
theorem c1_classifier_thresholds_witness :
    emptyResult.risk_band = RiskBand.MEDIUM ∧
    emptyResult.decision = Decision.CONDITIONAL_APPROVAL :=
  (c1_classifier_thresholds emptyRecord emptyResult (by decide)).2.1 (by decide) (by decide)

/-- C2: whenever `evaluate_customer` returns, each published category
score lies in its ceiling range and the total lies in [0,100]. -/
theorem c2_score_ranges (data : InputRecord) (r : ScoreResult)
    (h : evaluate_customer data = some r) :
    (0 ≤ r.category_scores.financial_strength ∧ r.category_scores.financial_strength ≤ 40) ∧
    (0 ≤ r.category_scores.payment_behaviour ∧ r.category_scores.payment_behaviour ≤ 30) ∧
    (0 ≤ r.category_scores.external_checks ∧ r.category_scores.external_checks ≤ 15) ∧
    (0 ≤ r.category_scores.business_stability ∧ r.category_scores.business_stability ≤ 15) ∧
    (0 ≤ r.total_score ∧ r.total_score ≤ 100) := by
  obtain ⟨c, -, hr⟩ := evaluate_customer_inv data r h
  subst hr
  exact ⟨_clamp_mem _ 0 40 (by norm_num), _clamp_mem _ 0 30 (by norm_num),
         _clamp_mem _ 0 15 (by norm_num), _clamp_mem _ 0 15 (by norm_num),
         _clamp_mem _ 0 100 (by norm_num)⟩

/-- C2 witness at the empty record. -/
theorem c2_score_ranges_witness :
    (0 ≤ emptyResult.category_scores.financial_strength ∧ emptyResult.category_scores.financial_strength ≤ 40) ∧
    (0 ≤ emptyResult.category_scores.payment_behaviour ∧ emptyResult.category_scores.payment_behaviour ≤ 30) ∧
    (0 ≤ emptyResult.category_scores.external_checks ∧ emptyResult.category_scores.external_checks ≤ 15) ∧
    (0 ≤ emptyResult.category_scores.business_stability ∧ emptyResult.category_scores.business_stability ≤ 15) ∧
    (0 ≤ emptyResult.total_score ∧ emptyResult.total_score ≤ 100) :=
  c2_score_ranges emptyRecord emptyResult (by decide)

/-- C3: improving any single scored field never decreases that field's
sub-score; in particular the days-to-pay sub-score is antitone in
`avg_days_to_pay`.  Improvement direction per field: larger npm,
current ratio and years; smaller debt-to-equity, days, bounces and
concentration; trend declining < stable < improving; industry high <
medium < low; flags false better than true.  The bounced-cheque
conjunct is stated on nonnegative counts: the source's `bounces == 0`
special case scores a (meaningless) negative count 7, below the 10 of
zero, so antitonicity on all of ℤ would fail at -1 ≤ 0. -/
theorem c3_sub_score_monotonicity :
    (∀ d d2 : Int, d ≤ d2 → (scoreDays d2).1 ≤ (scoreDays d).1) ∧
    (∀ a b : ℚ, a ≤ b → (scoreNpm a).1 ≤ (scoreNpm b).1) ∧
    (∀ a b : ℚ, a ≤ b → (scoreCurrRatio a).1 ≤ (scoreCurrRatio b).1) ∧
    (∀ a b : ℚ, a ≤ b → (scoreD2e b).1 ≤ (scoreD2e a).1) ∧
    (∀ n n2 : Int, 0 ≤ n → n ≤ n2 → (scoreBounces n2).1 ≤ (scoreBounces n).1) ∧
    (∀ a b : ℚ, a ≤ b → (scoreYears a).1 ≤ (scoreYears b).1) ∧
    (∀ a b : ℚ, a ≤ b → (scoreConc b).1 ≤ (scoreConc a).1) ∧
    ((scoreTrend ("declining")).1 ≤ (scoreTrend ("stable")).1 ∧
     (scoreTrend ("stable")).1 ≤ (scoreTrend ("improving")).1) ∧
    ((scoreInd ("high")).1 ≤ (scoreInd ("medium")).1 ∧
     (scoreInd ("medium")).1 ≤ (scoreInd ("low")).1) ∧
    (scoreDefaultAdj true).1 ≤ (scoreDefaultAdj false).1 ∧
    (scoreMgmtAdj true).1 ≤ (scoreMgmtAdj false).1 := by
  refine ⟨?_, ?_, ?_, ?_, ?_, ?_, ?_, by decide, by decide, by decide, by decide⟩
  · intro d d2 hd
    unfold scoreDays
    split_ifs <;> dsimp only <;> omega
  · intro a b hab
    unfold scoreNpm
    split_ifs <;> dsimp only <;> first | (exfalso; linarith) | norm_num
  · intro a b hab
    unfold scoreCurrRatio
    split_ifs <;> dsimp only <;> first | (exfalso; linarith) | norm_num
  · intro a b hab
    unfold scoreD2e
    split_ifs <;> dsimp only <;> first | (exfalso; linarith) | norm_num
  · intro n n2 h0 hn
    unfold scoreBounces
    split_ifs <;> dsimp only <;> omega
  · intro a b hab
    unfold scoreYears
    split_ifs <;> dsimp only <;> first | (exfalso; linarith) | norm_num
  · intro a b hab
    unfold scoreConc
    split_ifs <;> dsimp only <;> first | (exfalso; linarith) | norm_num

/-- C3 witness: concrete instantiations of every monotonicity conjunct. -/
theorem c3_sub_score_monotonicity_witness :
    (scoreDays (120 : Int)).1 ≤ (scoreDays (20 : Int)).1 ∧
    (scoreNpm (3 : ℚ)).1 ≤ (scoreNpm (12 : ℚ)).1 ∧
    (scoreCurrRatio (1 : ℚ)).1 ≤ (scoreCurrRatio (2 : ℚ)).1 ∧
    (scoreD2e (4 : ℚ)).1 ≤ (scoreD2e (1 : ℚ)).1 ∧
    (scoreBounces (6 : Int)).1 ≤ (scoreBounces (1 : Int)).1 ∧
    (scoreYears (1 : ℚ)).1 ≤ (scoreYears (11 : ℚ)).1 ∧
    (scoreConc (90 : ℚ)).1 ≤ (scoreConc (10 : ℚ)).1 :=
  ⟨c3_sub_score_monotonicity.1 20 120 (by norm_num),
   c3_sub_score_monotonicity.2.1 3 12 (by norm_num),
   c3_sub_score_monotonicity.2.2.1 1 2 (by norm_num),
   c3_sub_score_monotonicity.2.2.2.1 1 4 (by norm_num),
   c3_sub_score_monotonicity.2.2.2.2.1 1 6 (by norm_num) (by norm_num),
   c3_sub_score_monotonicity.2.2.2.2.2.1 1 11 (by norm_num),
   c3_sub_score_monotonicity.2.2.2.2.2.2.1 10 90 (by norm_num)⟩

/-- C4 counterexample: a null `net_profit_margin` makes
`evaluate_customer` fail (`float(None)` raises `TypeError`), while the
empty record succeeds — so null is not equivalent to absent. -/
theorem c4_null_counterexample :
    evaluate_customer { net_profit_margin := some PyVal.null } = Option.none ∧
    evaluate_customer emptyRecord ≠ Option.none := by
  exact ⟨rfl, by decide⟩

/-- C4 amended: for each financial-strength numeric field, omitting the
field defaults to 0.0 (same result as an explicit 0.0) and evaluation
succeeds, but supplying null makes `evaluate_customer` fail. -/
theorem c4_null_vs_absent :
    evaluate_customer { net_profit_margin := some PyVal.null } = Option.none ∧
    evaluate_customer { current_ratio := some PyVal.null } = Option.none ∧
    evaluate_customer { debt_to_equity := some PyVal.null } = Option.none ∧
    evaluate_customer { banking_limit_utilisation := some PyVal.null } = Option.none ∧
    evaluate_customer { net_profit_margin := some (PyVal.num 0) } = evaluate_customer emptyRecord ∧
    evaluate_customer { current_ratio := some (PyVal.num 0) } = evaluate_customer emptyRecord ∧
    evaluate_customer { debt_to_equity := some (PyVal.num 0) } = evaluate_customer emptyRecord ∧
    evaluate_customer { banking_limit_utilisation := some (PyVal.num 0) } = evaluate_customer emptyRecord ∧
    evaluate_customer emptyRecord ≠ Option.none := by
  refine ⟨rfl, rfl, rfl, rfl, rfl, rfl, rfl, rfl, by decide⟩

/-- C5 counterexample: a null `turnover_trend` is coerced to `""` and
scores 3, not 4 — financial strength 18 instead of the 19 an explicit
`"stable"` yields, so null is not identical to `"stable"`. -/
theorem c5_null_trend_counterexample :
    (evaluate_customer { turnover_trend := some PyVal.null }).map
      (fun r => r.category_scores.financial_strength) = some 18 ∧
    (evaluate_customer { turnover_trend := some (PyVal.str ("stable")) }).map
      (fun r => r.category_scores.financial_strength) = some 19 := by
  exact ⟨rfl, rfl⟩

/-- C5 amended: an absent `turnover_trend` defaults to `"stable"` and
scores 4 with no reason; a null value is coerced to the empty string,
which is unrecognized and scores 3 with no reason; every unrecognized
string scores 3 with no reason. -/
theorem c5_trend_default :
    (coerceTrend Option.none = "stable" ∧ scoreTrend ("stable") = (4, [])) ∧
    (coerceTrend (some PyVal.null) = "" ∧ scoreTrend ("") = (3, [])) ∧
    (∀ s : String, s ≠ "improving" → s ≠ "stable" → s ≠ "declining" →
      scoreTrend s = (3, [])) := by
  refine ⟨⟨rfl, rfl⟩, ⟨rfl, rfl⟩, fun s h1 h2 h3 => ?_⟩
  unfold scoreTrend
  rw [if_neg h1, if_neg h2, if_neg h3]

/-- C5 witness: an unrecognized non-empty trend string scores 3 with no
reason. -/
theorem c5_trend_default_witness : scoreTrend ("sideways") = (3, []) :=
  c5_trend_default.2.2 ("sideways") (by decide) (by decide) (by decide)

/-- C6: the empty input record evaluates to category scores 19/18/7/7,
total 51, MEDIUM band and CONDITIONAL_APPROVAL. -/
theorem c6_empty_record :
    evaluate_customer emptyRecord = some
      { total_score := 51
        risk_band := RiskBand.MEDIUM
        decision := Decision.CONDITIONAL_APPROVAL
        category_scores :=
          { financial_strength := 19
            payment_behaviour := 18
            external_checks := 7
            business_stability := 7 }
        reasons := ["Net profit margin is very low or negative.",
                    "Current ratio below 1.0 indicates tight liquidity.",
                    "Bank limit utilisation is low; could indicate underutilisation of facilities.",
                    "Limited operating history."] } := by
  rfl

/-- C7 counterexample: the weak-applicant record triggers fifteen reason
strings, not ten. -/
theorem c7_reason_count_counterexample :
    (evaluate_customer weakRecord).map (fun r => r.reasons.length) = some 15 ∧
    (15 : Nat) ≠ 10 := by
  exact ⟨rfl, by decide⟩

/-- C7 amended: the weak applicant scores financial 4, payment 0
(raw sum −5 clamped), external 2, stability 0 (raw −2 clamped), total 6,
HIGH, REJECT, and the reasons list is exactly the fifteen triggered
negative-branch strings in fixed category order. -/
theorem c7_weak_applicant :
    evaluate_customer weakRecord = some
      { total_score := 6
        risk_band := RiskBand.HIGH
        decision := Decision.REJECT
        category_scores :=
          { financial_strength := 4
            payment_behaviour := 0
            external_checks := 2
            business_stability := 0 }
        reasons := ["Net profit margin is very low or negative.",
                    "Current ratio below 1.0 indicates tight liquidity.",
                    "Debt-to-equity is very high.",
                    "Bank limit utilisation consistently >90% indicates stress on working capital.",
                    "Turnover trend is declining.",
                    "Very high average payment days.",
                    "Frequent cheque bounces in last 12 months.",
                    "History of default / write-off reported.",
                    "GST filing not timely.",
                    "Active litigation / legal disputes reported.",
                    "Weak external rating (C).",
                    "Limited operating history.",
                    "High-risk industry.",
                    "Very high dependence on few customers.",
                    "Concerns flagged on management integrity / governance."] } := by
  rfl

/-- C8: the documented boundary values take the inclusive branch:
current ratio exactly 1.5 scores 8, bank utilisation exactly 40 and
exactly 80 score 8, and 90 average days to pay scores 2 (that band's
branch with its reason), not the else branch's 0. -/
theorem c8_boundaries :
    scoreCurrRatio (mkRat 3 2) = (8, []) ∧
    scoreBankUtil (40) = (8, []) ∧
    scoreBankUtil (80) = (8, []) ∧
    scoreDays (90) = (2, ["Average payment days are on the higher side."]) := by
  refine ⟨?_, ?_, ?_, ?_⟩ <;> decide

/-- C9: evaluation is deterministic — the source is a pure function of
its input record, which the embedding reflects: identical inputs yield
identical totals, bands, decisions, category scores and reason lists. -/
theorem c9_deterministic (d1 d2 : InputRecord) (h : d1 = d2)
    (r1 r2 : ScoreResult)
    (h1 : evaluate_customer d1 = some r1) (h2 : evaluate_customer d2 = some r2) :
    r1.total_score = r2.total_score ∧ r1.risk_band = r2.risk_band ∧
    r1.decision = r2.decision ∧ r1.category_scores = r2.category_scores ∧
    r1.reasons = r2.reasons := by
  subst h
  rw [h1] at h2
  injection h2 with h2
  subst h2
  exact ⟨rfl, rfl, rfl, rfl, rfl⟩

/-- C9 witness: two evaluations of the empty record agree. -/
theorem c9_deterministic_witness :
    emptyResult.total_score = emptyResult.total_score ∧
    emptyResult.risk_band = emptyResult.risk_band ∧
    emptyResult.decision = emptyResult.decision ∧
    emptyResult.category_scores = emptyResult.category_scores ∧
    emptyResult.reasons = emptyResult.reasons :=
  c9_deterministic emptyRecord emptyRecord rfl emptyResult emptyResult
    (by decide) (by decide)

/-- C10: the tri-state fields are compared by identity with the boolean
singletons, so any non-boolean value — truthy like `1` or `"yes"`, or
falsy like `0` — takes the unknown branch (score 3, no reason), while
the booleans take the confirmed branches. -/
theorem c10_tristate_identity :
    (∀ v : PyVal, v ≠ PyVal.bool true → v ≠ PyVal.bool false →
      scoreGst v = (3, []) ∧ scoreLit v = (3, [])) ∧
    scoreGst (PyVal.int 1) = (3, []) ∧
    scoreGst (PyVal.str ("yes")) = (3, []) ∧
    scoreGst (PyVal.int 0) = (3, []) ∧
    scoreLit (PyVal.int 1) = (3, []) ∧
    scoreLit (PyVal.int 0) = (3, []) ∧
    scoreGst (PyVal.bool true) = (5, []) ∧
    scoreGst (PyVal.bool false) = (1, ["GST filing not timely."]) ∧
    scoreLit (PyVal.bool false) = (5, []) ∧
    scoreLit (PyVal.bool true) = (1, ["Active litigation / legal disputes reported."]) := by
  refine ⟨fun v h1 h2 => ?_, rfl, rfl, rfl, rfl, rfl, rfl, rfl, rfl, rfl⟩
  cases v with
  | null => exact ⟨rfl, rfl⟩
  | bool b =>
      cases b with
      | false => exact absurd rfl h2
      | true => exact absurd rfl h1
  | int n => exact ⟨rfl, rfl⟩
  | num q => exact ⟨rfl, rfl⟩
  | str s => exact ⟨rfl, rfl⟩

/-- C10 witness: the integer 1 is scored as unknown by both tri-state
scorers. -/
theorem c10_tristate_identity_witness :
    scoreGst (PyVal.int 1) = (3, []) ∧ scoreLit (PyVal.int 1) = (3, []) :=
  c10_tristate_identity.1 (PyVal.int 1) (by decide) (by decide)
